import Mathlib

/-!
Verification of the RAG (retrieval-augmented generation) layer of the
`otdfctl llm` subsystem: the embedding-based vector store (`VectorStore`),
the keyword-based store (`SimpleRAGStore`), the context assembler
(`BuildRAGContext` / `BuildSimpleRAGContext`) and the chat engines
(`ChatEngine`, `SimpleChatEngine`) that orchestrate retrieval.

Modelling conventions, applied throughout:
* Go `float32` values are modelled as exact numbers: `ℚ` for keyword scores
  (all score arithmetic is rational) and `ℝ` for embedding components and
  cosine similarities (which involve square roots).  Float literals such as
  `0.3` and `0.1` are modelled by the rationals `3/10` and `1/10`.
* Go slices are Lean lists; a method mutating its receiver becomes a function
  returning the new state; a Go `error` result becomes `Option String`
  (`none` = nil) or `Except String`.
* `sort.Slice(results, less)` with the strict comparator
  `less i j = (score i > score j)` guarantees only a sorted permutation: Go
  documents `sort.Slice` as not guaranteed to be stable, and its pdqsort does
  reorder equal elements once a slice exceeds the insertion-sort cutoff of
  12.  The model's `sortByKeyDesc` is one concrete refinement of that
  contract (a stable descending sort); the theorems below use only its
  sortedness and permutation properties, which every refinement shares, and
  no theorem asserts the insertion order of equal keys, since the program
  does not guarantee it (see C1).
* Byte-level Go string operations (`strings.FieldsFunc`, `strings.ToLower`,
  `strings.Contains`, `strings.Join`, `strings.TrimSpace`) are modelled
  character-wise on `String.data`; on the ASCII text manipulated here the two
  agree.  The `fmt.Sprintf("%.3f", score)` float formatter is taken as a
  parameter (`showScore`) since its output bytes never matter to the claims.
* External collaborators (the llama.cpp model, the embedding engine, the
  filesystem) are parameters: inference is an oracle `String → Except String
  String`, query embedding generation an oracle `String → Except String (List
  ℝ)`, and the persisted index file is a JSON syntax tree (`Jx`).
-/

/-- ASCII alphanumeric test: the predicate of `strings.FieldsFunc` in
`extractKeywords` (`simple_rag.go`), which splits on every rune that is not
a-z, A-Z or 0-9. -/
def isAlnumChar (c : Char) : Bool :=
  (('a' ≤ c && c ≤ 'z') || ('A' ≤ c && c ≤ 'Z') || ('0' ≤ c && c ≤ '9'))

/-- Character-wise lowercasing, modelling `strings.ToLower` on ASCII text. -/
def lowerStr (s : String) : String :=
  String.mk (s.data.map Char.toLower)

/-- Whitespace test used by `strings.TrimSpace` (ASCII fragment). -/
def isSpaceChar (c : Char) : Bool :=
  c = ' ' || c = '\t' || c = '\n' || c = '\r'

/-- Modelling `strings.TrimSpace`. -/
def trimStr (s : String) : String :=
  String.mk (((s.data.dropWhile isSpaceChar).reverse.dropWhile isSpaceChar).reverse)

/-- Splits a character list into the maximal runs satisfying `p`, dropping
empty runs: the behaviour of `strings.FieldsFunc(text, fun c => !p c)`.
`acc` holds the current run, reversed. -/
def fieldRuns (p : Char → Bool) : List Char → List Char → List String
  | [], acc => if acc.isEmpty then [] else [String.mk acc.reverse]
  | c :: cs, acc =>
    if p c then fieldRuns p cs (c :: acc)
    else if acc.isEmpty then fieldRuns p cs []
    else String.mk acc.reverse :: fieldRuns p cs []

/-- `strings.FieldsFunc(text, fun c => !isAlnumChar c)`: the word splitter of
`extractKeywords`. -/
def splitAlnumWords (text : String) : List String :=
  fieldRuns isAlnumChar text.data []

/-- Does `pat` occur at the head of `text`? -/
def charsStartWith : List Char → List Char → Bool
  | _, [] => true
  | [], _ :: _ => false
  | c :: cs, p :: ps => c = p && charsStartWith cs ps

/-- Does `pat` occur contiguously anywhere in `text`?  Models
`strings.Contains` character-wise. -/
def charsContain : List Char → List Char → Bool
  | [], p => p.isEmpty
  | c :: cs, p => charsStartWith (c :: cs) p || charsContain cs p

/-- `strings.Contains(s, pat)` on the character level. -/
def strContains (s pat : String) : Bool :=
  charsContain s.data pat.data

/-- `strings.Join(ws, " ")`. -/
def joinSpace : List String → String
  | [] => ""
  | [w] => w
  | w :: ws => w ++ " " ++ joinSpace ws

/-- The stop-word set of `extractKeywords` in `simple_rag.go`, transcribed
verbatim from the Go map literal. -/
def stopWords : List String :=
  ["the", "a", "an", "and", "or", "but",
   "in", "on", "at", "to", "for", "of",
   "with", "by", "from", "about", "into",
   "through", "during", "before", "after", "above",
   "below", "up", "down", "out", "off", "over",
   "under", "again", "further", "then", "once",
   "is", "are", "was", "were", "be", "been",
   "being", "have", "has", "had", "do", "does",
   "did", "will", "would", "could", "should",
   "this", "that", "these", "those", "i", "me",
   "my", "myself", "we", "our", "ours", "ourselves",
   "you", "your", "yours", "yourself", "yourselves",
   "he", "him", "his", "himself", "she", "her",
   "hers", "herself", "it", "its", "itself", "they",
   "them", "their", "theirs", "themselves", "what",
   "which", "who", "whom", "whose", "where", "when",
   "why", "how"]

/-- `extractKeywords` (`simple_rag.go`): split on non-alphanumerics, lowercase
and trim each word, keep the words of length above 2 that are not stop
words. -/
def extractKeywords (text : String) : List String :=
  ((splitAlnumWords text).map (fun w => lowerStr (trimStr w))).filter
    (fun w => 2 < w.length && !(stopWords.contains w))

/-- `SimpleDocument` (`simple_rag.go`): a document of the keyword store. -/
structure SimpleDocument where
  id : String
  title : String
  content : String
  url : String
  filePath : String
  keywords : List String
deriving DecidableEq

/-- `SimpleRAGStore` (`simple_rag.go`): in-memory state of the keyword
store. -/
structure SimpleRAGStore where
  documents : List SimpleDocument
  indexPath : String
deriving DecidableEq

/-- `NewSimpleRAGStore`. -/
def NewSimpleRAGStore (indexPath : String) : SimpleRAGStore :=
  ⟨[], indexPath⟩

/-- `SimpleRAGStore.AddDocument`: always appends, never fails. -/
def SimpleRAGStore.addDocument (s : SimpleRAGStore) (doc : SimpleDocument) :
    SimpleRAGStore × Option String :=
  (⟨s.documents ++ [doc], s.indexPath⟩, none)

/-- `SearchResult` (`simple_rag.go`): a keyword-store document with its
score. -/
structure SearchResult where
  document : SimpleDocument
  score : ℚ
deriving DecidableEq

/-- `SimpleRAGStore.GetDocumentCount`. -/
def SimpleRAGStore.getDocumentCount (s : SimpleRAGStore) : Nat :=
  s.documents.length

/-- `calculateScore` (`simple_rag.go`): the relevance score of `doc` against
the already-extracted query keywords.  The Go code iterates over the
`queryWordCount` hash map (one entry per distinct query word); since rational
addition is commutative and associative the map-iteration order is
irrelevant and the sum is taken over `queryWords.dedup`. -/
def SimpleRAGStore.calculateScore (queryWords : List String)
    (doc : SimpleDocument) : ℚ :=
  if queryWords.length = 0 then 0
  else
    let docText := lowerStr (doc.title ++ " " ++ doc.content)
    let docWords := extractKeywords docText
    let totalQueryWords : ℚ := queryWords.length
    let base := (queryWords.dedup.map (fun w =>
      if docWords.contains w then
        let wordScore := (queryWords.count w : ℚ) / totalQueryWords
        let wordScore := if 1 < docWords.count w then wordScore * (3/2) else wordScore
        let wordScore := if strContains (lowerStr doc.title) w then wordScore * 2 else wordScore
        wordScore
      else 0)).sum
    let queryLower := lowerStr (joinSpace queryWords)
    base + (if strContains docText queryLower then 1 else 0)

/-- Descending order on a score key: `keyGE k a b` holds when the key of `a`
is at least the key of `b`, so that a `keyGE`-sorted list has non-increasing
keys. -/
def keyGE {α β : Type} [LinearOrder β] (k : α → β) (a b : α) : Prop :=
  k b ≤ k a

instance {α β : Type} [LinearOrder β] (k : α → β) : DecidableRel (keyGE k) :=
  fun a b => inferInstanceAs (Decidable (k b ≤ k a))

instance {α β : Type} [LinearOrder β] (k : α → β) : IsTotal α (keyGE k) :=
  ⟨fun a b => le_total (k b) (k a)⟩

instance {α β : Type} [LinearOrder β] (k : α → β) : IsTrans α (keyGE k) :=
  ⟨fun _ _ _ h1 h2 => le_trans h2 h1⟩

/-- One refinement of `sort.Slice(results, fun i j => k i > k j)`, whose
contract is a permutation with non-increasing keys.  Go documents
`sort.Slice` as not guaranteed to be stable — for 13 or more elements its
pdqsort moves equal keys out of their original order — so only the
sortedness and permutation of this definition, shared by every refinement,
are used in theorems; its incidental stability is not. -/
def sortByKeyDesc {α β : Type} [LinearOrder β] (k : α → β) (l : List α) :
    List α :=
  List.insertionSort (keyGE k) l

/-- `SimpleRAGStore.Search` (`simple_rag.go`): empty store returns no results;
otherwise every document scoring above zero is ranked by descending score and
the list is truncated to `topK` entries.  The Go error result is always
nil. -/
def SimpleRAGStore.search (s : SimpleRAGStore) (query : String) (topK : Nat) :
    List SearchResult × Option String :=
  if s.documents.length = 0 then ([], none)
  else
    let queryWords := extractKeywords (lowerStr query)
    let results := (s.documents.map (fun d =>
      (⟨d, SimpleRAGStore.calculateScore queryWords d⟩ : SearchResult))).filter
      (fun r => 0 < r.score)
    let sorted := sortByKeyDesc (fun r : SearchResult => r.score) results
    (if topK < sorted.length then sorted.take topK else sorted, none)

/-- `Document` (`ingest.md`, vector-store source): a documentation chunk with
its embedding.  `float32` embedding components are modelled as real
numbers. -/
structure Document where
  id : String
  title : String
  content : String
  url : String
  filePath : String
  embedding : List ℝ
  chunkIndex : Int
  totalChunks : Int

/-- `VectorStore`: in-memory state of the embedding store.  The Go struct
also holds a `sync.RWMutex`, which has no sequential content. -/
structure VectorStore where
  documents : List Document
  embeddingDim : Nat
  indexPath : String

/-- `SimilarityResult`: a document paired with its similarity score. -/
structure SimilarityResult where
  document : Document
  similarity : ℝ

/-- `NewVectorStore`: empty store, dimension not yet fixed. -/
def NewVectorStore (indexPath : String) : VectorStore :=
  ⟨[], 0, indexPath⟩

/-- `VectorStore.GetDocumentCount`. -/
def VectorStore.getDocumentCount (vs : VectorStore) : Nat :=
  vs.documents.length

/-- `VectorStore.AddDocument`: first fixes `embeddingDim` when it is still 0
and the incoming embedding is non-empty, then rejects the document when its
embedding length disagrees with a positive `embeddingDim`, otherwise
appends.  Returns the state of the receiver after the call together with the
Go error result. -/
def VectorStore.addDocument (vs : VectorStore) (doc : Document) :
    VectorStore × Option String :=
  let vs1 := if vs.embeddingDim = 0 ∧ 0 < doc.embedding.length then
    ⟨vs.documents, doc.embedding.length, vs.indexPath⟩ else vs
  if doc.embedding.length ≠ vs1.embeddingDim ∧ 0 < vs1.embeddingDim then
    (vs1, some "embedding dimension mismatch")
  else
    (⟨vs1.documents ++ [doc], vs1.embeddingDim, vs1.indexPath⟩, none)

/-- The sum of squares of a vector: the `normA`/`normB` accumulation of
`cosineSimilarity`. -/
noncomputable def sumSq (a : List ℝ) : ℝ :=
  (a.map (fun x => x * x)).sum

/-- The dot product accumulation of `cosineSimilarity`. -/
noncomputable def dotList (a b : List ℝ) : ℝ :=
  (List.zipWith (fun x y => x * y) a b).sum

/-- `cosineSimilarity` (`ingest.md`): 0 on length mismatch, 0 when either
vector has zero norm, otherwise the normalized dot product. -/
noncomputable def cosineSimilarity (a b : List ℝ) : ℝ :=
  if a.length ≠ b.length then 0
  else if sumSq a = 0 ∨ sumSq b = 0 then 0
  else dotList a b / (Real.sqrt (sumSq a) * Real.sqrt (sumSq b))

/-- The unsorted result list of `VectorStore.Search`: every stored document
paired with its cosine similarity against the query, in insertion order. -/
noncomputable def VectorStore.scoredResults (vs : VectorStore)
    (queryEmbedding : List ℝ) : List SimilarityResult :=
  vs.documents.map (fun d => ⟨d, cosineSimilarity queryEmbedding d.embedding⟩)

/-- `VectorStore.Search` (`ingest.md`): dimension check, score every
document, rank by descending similarity, truncate to `topK` (first clamped
to the document count). -/
noncomputable def VectorStore.search (vs : VectorStore)
    (queryEmbedding : List ℝ) (topK : Nat) :
    Except String (List SimilarityResult) :=
  if queryEmbedding.length ≠ vs.embeddingDim then
    .error "query embedding dimension mismatch"
  else
    let topK2 := if vs.documents.length < topK then vs.documents.length else topK
    let sorted := sortByKeyDesc (fun r : SimilarityResult => r.similarity)
      (vs.scoredResults queryEmbedding)
    .ok (if topK2 < sorted.length then sorted.take topK2 else sorted)

/-- `RAGContext` (`ingest.md`). -/
structure RAGContext where
  query : String
  results : List SimilarityResult
  contextText : String
  numDocuments : Nat

/-- The greedy inclusion loop shared by `BuildRAGContext` and
`BuildSimpleRAGContext`: walk the ranked results in order, estimate each
document at `len(content) / 4` tokens, and stop at the first document whose
inclusion would push the running total over `maxTokens`. -/
def ragTake {α : Type} (contentLength : α → Nat) :
    List α → Nat → Nat → List α
  | [], _, _ => []
  | r :: rest, tokenCount, maxTokens =>
    let docTokens := contentLength r / 4
    if maxTokens < tokenCount + docTokens then []
    else r :: ragTake contentLength rest (tokenCount + docTokens) maxTokens

/-- The per-document section of the assembled context text
(`fmt.Sprintf` calls of `BuildRAGContext`), with the float formatter
abstracted as `showScore`. -/
def ragSection (title url content scoreText : String) : String :=
  "## " ++ title ++ "\n" ++ "**Source:** " ++ url ++ "\n" ++
    "**Relevance:** " ++ scoreText ++ "\n\n" ++ content ++ "\n\n---\n\n"

/-- `BuildRAGContext` (`ingest.md`): greedily pack ranked similarity results
into a `maxTokens` budget. -/
def BuildRAGContext (showScore : ℝ → String) (query : String)
    (results : List SimilarityResult) (maxTokens : Nat) : RAGContext :=
  let used := ragTake (fun r : SimilarityResult => r.document.content.length)
    results 0 maxTokens
  ⟨query, used,
    "# Relevant OpenTDF Documentation\n\n" ++
      String.join (used.map (fun r => ragSection r.document.title
        r.document.url r.document.content (showScore r.similarity))),
    used.length⟩

/-- The `SearchResult` to `SimilarityResult` conversion performed by
`BuildSimpleRAGContext` ("Convert to SimilarityResult for compatibility"):
embedding, chunk index and total chunks take their zero values. -/
noncomputable def SearchResult.toSimilarityResult (r : SearchResult) :
    SimilarityResult :=
  ⟨⟨r.document.id, r.document.title, r.document.content, r.document.url,
    r.document.filePath, [], 0, 0⟩, (r.score : ℝ)⟩

/-- `BuildSimpleRAGContext` (`simple_rag.go`): the same greedy packing over
keyword search results. -/
noncomputable def BuildSimpleRAGContext (showScore : ℚ → String)
    (query : String) (results : List SearchResult) (maxTokens : Nat) :
    RAGContext :=
  let used := ragTake (fun r : SearchResult => r.document.content.length)
    results 0 maxTokens
  ⟨query, used.map SearchResult.toSimilarityResult,
    "# Relevant OpenTDF Documentation\n\n" ++
      String.join (used.map (fun r => ragSection r.document.title
        r.document.url r.document.content (showScore r.score))),
    used.length⟩

/-- `ChatMessage` (`ingest.md`). -/
structure ChatMessage where
  role : String
  content : String
deriving DecidableEq

/-- `extractUserQuery` (identical in `ChatEngine` and `SimpleChatEngine`):
the content of the most recent message whose role is "user", or "" when
there is none. -/
def extractUserQuery (messages : List ChatMessage) : String :=
  (((messages.reverse.find? (fun m => m.role == "user")).map
    (fun m => m.content)).getD "")

/-- `buildPrompt` (identical in both engines): an optional system block,
then every user/assistant turn tagged with its role, then the open
assistant-turn marker. -/
def buildPrompt (systemMessage : String) (messages : List ChatMessage) :
    String :=
  (if systemMessage == "" then ""
   else "<|im_start|>system\n" ++ systemMessage ++ "<|im_end|>\n") ++
  String.join (messages.map (fun m =>
    if m.role == "user" then
      "<|im_start|>user\n" ++ m.content ++ "<|im_end|>\n"
    else if m.role == "assistant" then
      "<|im_start|>assistant\n" ++ m.content ++ "<|im_end|>\n"
    else "")) ++
  "<|im_start|>assistant\n"

/-- The trailing instruction appended to a RAG-enhanced system message by
both `buildPromptWithRAG` variants. -/
def ragSystemSuffix : String :=
  "\n\nBased on the above documentation, please provide accurate and helpful responses about OpenTDF."

/-- `ChatEngine` (`ingest.md`): the full engine.  The llama model and
context pointers, and the embedding engine pointer, are modelled by
presence flags; channels carry no claim-relevant sequential state. -/
structure ChatEngine where
  modelPath : String
  modelLoaded : Bool
  contextLoaded : Bool
  running : Bool
  vectorStore : Option VectorStore
  embeddingEngineLoaded : Bool
  simpleRAGStore : Option SimpleRAGStore
  ragEnabled : Bool
  simpleRAGEnabled : Bool

/-- `NewChatEngine`. -/
def NewChatEngine (modelPath : String) : ChatEngine :=
  ⟨modelPath, false, false, false, none, false, none, false, false⟩

/-- `ChatEngine.EnableRAG`: binds the vector store and embedding engine and
sets `ragEnabled`. -/
def ChatEngine.enableRAG (ce : ChatEngine) (vs : VectorStore) : ChatEngine :=
  { ce with vectorStore := some vs, embeddingEngineLoaded := true,
            ragEnabled := true }

/-- `ChatEngine.EnableSimpleRAG`: binds the keyword store and sets
`simpleRAGEnabled`. -/
def ChatEngine.enableSimpleRAG (ce : ChatEngine) (store : SimpleRAGStore) :
    ChatEngine :=
  { ce with simpleRAGStore := some store, simpleRAGEnabled := true }

/-- `ChatEngine.retrieveRAGContext` (`ingest.md`): embed the query through
the embedding-engine oracle, search the vector store with `topK = 5`, keep
the results with similarity above 0.3, assemble with a 2000-token budget.
The vector store is passed explicitly: the caller guards that the field is
non-nil. -/
noncomputable def ChatEngine.retrieveRAGContext (vs : VectorStore)
    (genEmbedding : String → Except String (List ℝ)) (showSim : ℝ → String)
    (query : String) : Except String RAGContext :=
  match genEmbedding query with
  | .error e => .error ("failed to generate query embedding: " ++ e)
  | .ok queryEmbedding =>
    match vs.search queryEmbedding 5 with
    | .error e => .error ("similarity search failed: " ++ e)
    | .ok results =>
      .ok (BuildRAGContext showSim query
        (results.filter (fun r => decide ((3 : ℝ)/10 < r.similarity))) 2000)

/-- `ChatEngine.retrieveSimpleRAGContext` (`ingest.md`): search the keyword
store with `topK = 5`, keep the results with score above 0.1, assemble with
a 2000-token budget.  The keyword search never returns a Go error, so the
error branch of the Go code is dead and the result is always `.ok`. -/
noncomputable def ChatEngine.retrieveSimpleRAGContext (store : SimpleRAGStore)
    (showScore : ℚ → String) (query : String) : Except String RAGContext :=
  let results := (store.search query 5).1
  .ok (BuildSimpleRAGContext showScore query
    (results.filter (fun r => 1/10 < r.score)) 2000)

/-- The shared shape of both `buildPromptWithRAG` variants: the last system
message (Go overwrites `systemMessage` on every system-role message, starting
from "") and the non-system turns in order. -/
def lastSystemMessage (messages : List ChatMessage) : String :=
  messages.foldl (fun acc m => if m.role == "system" then m.content else acc) ""

/-- `ChatEngine.buildPromptWithRAG` (`ingest.md`): embedding-mode retrieval
when `ragEnabled` with a non-empty query and a bound store and engine,
otherwise keyword-mode retrieval when `simpleRAGEnabled` with a non-empty
query and a bound store, otherwise no augmentation; a retrieval error or an
empty context leaves the system message unchanged. -/
noncomputable def ChatEngine.buildPromptWithRAG (ce : ChatEngine)
    (genEmbedding : String → Except String (List ℝ)) (showSim : ℝ → String)
    (showScore : ℚ → String) (messages : List ChatMessage)
    (userQuery : String) : String :=
  let systemMessage0 := lastSystemMessage messages
  let conversationMessages := messages.filter (fun m => !(m.role == "system"))
  let systemMessage :=
    if ce.ragEnabled && !(userQuery == "") && ce.vectorStore.isSome
        && ce.embeddingEngineLoaded then
      match ce.vectorStore with
      | some vs =>
        match ChatEngine.retrieveRAGContext vs genEmbedding showSim userQuery with
        | .error _ => systemMessage0
        | .ok ragContext =>
          if 0 < ragContext.numDocuments then
            systemMessage0 ++ "\n\n" ++ ragContext.contextText ++ ragSystemSuffix
          else systemMessage0
      | none => systemMessage0
    else if ce.simpleRAGEnabled && !(userQuery == "")
        && ce.simpleRAGStore.isSome then
      match ce.simpleRAGStore with
      | some store =>
        match ChatEngine.retrieveSimpleRAGContext store showScore userQuery with
        | .error _ => systemMessage0
        | .ok ragContext =>
          if 0 < ragContext.numDocuments then
            systemMessage0 ++ "\n\n" ++ ragContext.contextText ++ ragSystemSuffix
          else systemMessage0
      | none => systemMessage0
    else systemMessage0
  buildPrompt systemMessage conversationMessages

/-- `SimpleChatEngine` (`simple_engine.go`): the lightweight engine. -/
structure SimpleChatEngine where
  modelPath : String
  modelLoaded : Bool
  contextLoaded : Bool
  simpleRAGStore : Option SimpleRAGStore
  ragEnabled : Bool
  running : Bool

/-- `NewSimpleChatEngine`. -/
def NewSimpleChatEngine (modelPath : String) : SimpleChatEngine :=
  ⟨modelPath, false, false, none, false, false⟩

/-- `SimpleChatEngine.EnableSimpleRAG`. -/
def SimpleChatEngine.enableSimpleRAG (sce : SimpleChatEngine)
    (store : SimpleRAGStore) : SimpleChatEngine :=
  { sce with simpleRAGStore := some store, ragEnabled := true }

/-- `SimpleChatEngine.Start`: fails when already running; otherwise marks
the engine running, with model and context presence determined by the
outcome of the external loads (parameters `loadOk`, `ctxOk`). -/
def SimpleChatEngine.start (sce : SimpleChatEngine) (loadOk ctxOk : Bool) :
    SimpleChatEngine × Option String :=
  if sce.running then (sce, some "engine already running")
  else
    let started := { sce with modelLoaded := loadOk,
                              contextLoaded := (loadOk && ctxOk),
                              running := true }
    (started, none)

/-- `SimpleChatEngine.Stop`: a no-op when not running; otherwise frees the
model, drops the context and clears `running`. -/
def SimpleChatEngine.stop (sce : SimpleChatEngine) : SimpleChatEngine :=
  if sce.running then
    { sce with modelLoaded := false, contextLoaded := false, running := false }
  else sce

/-- `SimpleResponse` (`simple_engine.go`). -/
structure SimpleResponse where
  content : String
  error : Option String
deriving DecidableEq

/-- The retrieval step inlined in `SimpleChatEngine.buildPromptWithRAG`
(`simple_engine.go`): search the keyword store with `topK = 2` ("Top 2
results") and assemble with an 800-token budget ("Reduced from 1500 to 800
tokens"); no score threshold is applied. -/
noncomputable def SimpleChatEngine.retrieveSimpleRAG (store : SimpleRAGStore)
    (showScore : ℚ → String) (query : String) : RAGContext :=
  BuildSimpleRAGContext showScore query (store.search query 2).1 800

/-- `SimpleChatEngine.buildPromptWithRAG` (`simple_engine.go`): keyword
retrieval with `topK = 2` and an 800-token budget; no score threshold is
applied.  A retrieval error, an empty result list or an empty assembled
context leaves the system message unchanged. -/
noncomputable def SimpleChatEngine.buildPromptWithRAG (sce : SimpleChatEngine)
    (showScore : ℚ → String) (messages : List ChatMessage)
    (userQuery : String) : String :=
  let systemMessage0 := lastSystemMessage messages
  let conversationMessages := messages.filter (fun m => !(m.role == "system"))
  let systemMessage :=
    if sce.ragEnabled && !(userQuery == "") && sce.simpleRAGStore.isSome then
      match sce.simpleRAGStore with
      | some store =>
        let results := (store.search userQuery 2).1
        if 0 < results.length then
          let ragContext := SimpleChatEngine.retrieveSimpleRAG store showScore userQuery
          if 0 < ragContext.numDocuments then
            systemMessage0 ++ "\n\n" ++ ragContext.contextText ++ ragSystemSuffix
          else systemMessage0
        else systemMessage0
      | none => systemMessage0
    else systemMessage0
  buildPrompt systemMessage conversationMessages

/-- `SimpleChatEngine.Chat` (`simple_engine.go`): refuse when not running,
build the (possibly RAG-augmented) prompt, refuse when model or context is
missing, otherwise run the inference oracle once on the prompt. -/
noncomputable def SimpleChatEngine.chat (sce : SimpleChatEngine)
    (infer : String → Except String String) (showScore : ℚ → String)
    (messages : List ChatMessage) : SimpleResponse :=
  if !sce.running then ⟨"", some "engine not running"⟩
  else
    let userQuery := extractUserQuery messages
    let prompt := sce.buildPromptWithRAG showScore messages userQuery
    if !(sce.modelLoaded && sce.contextLoaded) then
      ⟨"", some "model or context not loaded"⟩
    else
      match infer prompt with
      | .error e => ⟨"", some e⟩
      | .ok response => ⟨response, none⟩

/-- `SimpleChatEngine.ChatStream` (`simple_engine.go`): as `chat`, with the
streaming oracle returning the generated pieces; the second component is the
list of pieces handed to the callback, in order (empty whenever inference is
never reached). -/
noncomputable def SimpleChatEngine.chatStream (sce : SimpleChatEngine)
    (inferStream : String → Except String (List String))
    (showScore : ℚ → String) (messages : List ChatMessage) :
    SimpleResponse × List String :=
  if !sce.running then (⟨"", some "engine not running"⟩, [])
  else
    let userQuery := extractUserQuery messages
    let prompt := sce.buildPromptWithRAG showScore messages userQuery
    if !(sce.modelLoaded && sce.contextLoaded) then
      (⟨"", some "model or context not loaded"⟩, [])
    else
      match inferStream prompt with
      | .error e => (⟨"", some e⟩, [])
      | .ok pieces => (⟨trimStr (String.join pieces), none⟩, pieces)

/-- Decode every element of a list, failing when any element fails: the
element-wise behaviour of `json.Unmarshal` on an array field. -/
def optionMapList {α β : Type} (f : α → Option β) : List α → Option (List β)
  | [] => some []
  | x :: xs => do
    let y ← f x
    let ys ← optionMapList f xs
    pure (y :: ys)

/-- A JSON value, the shape of the persisted index files.  String escaping
and number formatting inside `encoding/json` are below the level of this
model: a Go string maps to `.str`, a Go `int` to `.int` and a `float32`
embedding component to `.num`. -/
inductive Jx where
  | str : String → Jx
  | int : Int → Jx
  | num : ℝ → Jx
  | arr : List Jx → Jx
  | obj : List (String × Jx) → Jx

/-- Object field lookup. -/
def Jx.get (fields : List (String × Jx)) (key : String) : Option Jx :=
  (fields.find? (fun kv => kv.1 == key)).map (fun kv => kv.2)

/-- Expect a JSON string. -/
def Jx.asStr : Jx → Option String
  | .str s => some s
  | _ => none

/-- Expect a JSON integer. -/
def Jx.asInt : Jx → Option Int
  | .int n => some n
  | _ => none

/-- Expect a JSON number. -/
def Jx.asNum : Jx → Option ℝ
  | .num x => some x
  | _ => none

/-- Expect a JSON array of numbers. -/
def Jx.asNumList : Jx → Option (List ℝ)
  | .arr l => optionMapList Jx.asNum l
  | _ => none

/-- Expect a JSON array of strings. -/
def Jx.asStrList : Jx → Option (List String)
  | .arr l => optionMapList Jx.asStr l
  | _ => none

/-- The JSON encoding of a `Document`, with the field names of the Go
struct tags. -/
noncomputable def Document.toJx (d : Document) : Jx :=
  .obj [("id", .str d.id), ("title", .str d.title),
        ("content", .str d.content), ("url", .str d.url),
        ("file_path", .str d.filePath),
        ("embedding", .arr (d.embedding.map Jx.num)),
        ("chunk_index", .int d.chunkIndex),
        ("total_chunks", .int d.totalChunks)]

/-- Decoding a `Document` from JSON. -/
def Document.ofJx : Jx → Option Document
  | .obj fields => do
    let id ← (Jx.get fields "id").bind Jx.asStr
    let title ← (Jx.get fields "title").bind Jx.asStr
    let content ← (Jx.get fields "content").bind Jx.asStr
    let url ← (Jx.get fields "url").bind Jx.asStr
    let filePath ← (Jx.get fields "file_path").bind Jx.asStr
    let embedding ← (Jx.get fields "embedding").bind Jx.asNumList
    let chunkIndex ← (Jx.get fields "chunk_index").bind Jx.asInt
    let totalChunks ← (Jx.get fields "total_chunks").bind Jx.asInt
    pure ⟨id, title, content, url, filePath, embedding, chunkIndex, totalChunks⟩
  | _ => none

/-- `VectorStore.SaveIndex` (`ingest.md`): the JSON index value written to
disk, `{documents, embedding_dim}`. -/
noncomputable def VectorStore.saveIndex (vs : VectorStore) : Jx :=
  .obj [("documents", .arr (vs.documents.map Document.toJx)),
        ("embedding_dim", .int vs.embeddingDim)]

/-- `VectorStore.LoadIndex` (`ingest.md`) on an existing index file: parse
the JSON value and replace the documents and dimension of the receiver,
keeping its path. -/
def VectorStore.loadIndex (vs : VectorStore) (j : Jx) : Option VectorStore :=
  match j with
  | .obj fields => do
    let docsJx ← Jx.get fields "documents"
    let docs ← match docsJx with
      | .arr l => optionMapList Document.ofJx l
      | _ => none
    let dim ← (Jx.get fields "embedding_dim").bind Jx.asInt
    pure ⟨docs, dim.toNat, vs.indexPath⟩
  | _ => none

/-- The JSON encoding of a `SimpleDocument`, with the field names of the Go
struct tags. -/
def SimpleDocument.toJx (d : SimpleDocument) : Jx :=
  .obj [("id", .str d.id), ("title", .str d.title),
        ("content", .str d.content), ("url", .str d.url),
        ("file_path", .str d.filePath),
        ("keywords", .arr (d.keywords.map Jx.str))]

/-- Decoding a `SimpleDocument` from JSON. -/
def SimpleDocument.ofJx : Jx → Option SimpleDocument
  | .obj fields => do
    let id ← (Jx.get fields "id").bind Jx.asStr
    let title ← (Jx.get fields "title").bind Jx.asStr
    let content ← (Jx.get fields "content").bind Jx.asStr
    let url ← (Jx.get fields "url").bind Jx.asStr
    let filePath ← (Jx.get fields "file_path").bind Jx.asStr
    let keywords ← (Jx.get fields "keywords").bind Jx.asStrList
    pure ⟨id, title, content, url, filePath, keywords⟩
  | _ => none

/-- `SimpleRAGStore.SaveIndex` (`simple_rag.go`): the JSON index value,
`{documents}`. -/
def SimpleRAGStore.saveIndex (s : SimpleRAGStore) : Jx :=
  .obj [("documents", .arr (s.documents.map SimpleDocument.toJx))]

/-- `SimpleRAGStore.LoadIndex` (`simple_rag.go`) on an existing index file. -/
def SimpleRAGStore.loadIndex (s : SimpleRAGStore) (j : Jx) :
    Option SimpleRAGStore :=
  match j with
  | .obj fields => do
    let docsJx ← Jx.get fields "documents"
    let docs ← match docsJx with
      | .arr l => optionMapList SimpleDocument.ofJx l
      | _ => none
    pure ⟨docs, s.indexPath⟩
  | _ => none

/-- The keyword-mode retrieval that claim C5 describes for the full engine:
`topK = 2`, score filter above 0.1, 2000-token budget.  This follows the
words of the specification, to be compared with
`ChatEngine.retrieveSimpleRAGContext` as translated from the source. -/
noncomputable def claimedKeywordRetrievalFull (store : SimpleRAGStore)
    (showScore : ℚ → String) (query : String) : RAGContext :=
  BuildSimpleRAGContext showScore query
    (((store.search query 2).1).filter (fun r => 1/10 < r.score)) 2000

/-- The keyword-mode retrieval that claim C5 describes for the lightweight
engine: `topK = 2`, score filter above 0.1, 800-token budget.  This follows
the words of the specification, to be compared with
`SimpleChatEngine.retrieveSimpleRAG` as translated from the source. -/
noncomputable def claimedKeywordRetrievalLight (store : SimpleRAGStore)
    (showScore : ℚ → String) (query : String) : RAGContext :=
  BuildSimpleRAGContext showScore query
    (((store.search query 2).1).filter (fun r => 1/10 < r.score)) 800

/-- The scoring formula as the specification states it: over each distinct
query term present in the token stream of title and content, the term
frequency in the query divided by the total query-term count, times 1.5 when
the term occurs more than once in the document, times 2.0 when the term also
occurs in the (lowercased) title, plus a flat 1.0 when the stop-word-filtered
space-joined query phrase occurs verbatim in the lowercased document text. -/
def claimedKeywordScore (queryWords : List String) (doc : SimpleDocument) : ℚ :=
  if queryWords.length = 0 then 0
  else
    let docText := lowerStr (doc.title ++ " " ++ doc.content)
    let docWords := extractKeywords docText
    (((queryWords.dedup.filter (fun w => docWords.contains w)).map (fun w =>
      ((queryWords.count w : ℚ) / queryWords.length) *
        (if 1 < docWords.count w then 3/2 else 1) *
        (if strContains (lowerStr doc.title) w then 2 else 1))).sum) +
    (if strContains docText (lowerStr (joinSpace queryWords)) then 1 else 0)

/-- An ignored score formatter, standing in for `fmt.Sprintf` in concrete
examples. -/
def showSimEx : ℝ → String := fun _ => ""

/-- An ignored score formatter for rational scores. -/
def showScoreEx : ℚ → String := fun _ => ""

/-- A concrete document with a 2-dimensional embedding. -/
noncomputable def exDocA : Document :=
  ⟨"a", "Alpha", "alpha content", "ua", "fa", [1, 0], 0, 1⟩

/-- A second concrete document with a 2-dimensional embedding. -/
noncomputable def exDocB : Document :=
  ⟨"b", "Beta", "beta content", "ub", "fb", [0, 1], 0, 1⟩

/-- A concrete vector store holding `exDocA` and `exDocB`, dimension 2. -/
noncomputable def exVS : VectorStore :=
  ⟨[exDocA, exDocB], 2, "idx"⟩

/-- A document whose embedding length 3 disagrees with dimension 2. -/
noncomputable def exDocBad : Document :=
  ⟨"x", "X", "c", "ux", "fx", [1, 2, 3], 0, 1⟩

/-- A document with a matching 2-dimensional embedding. -/
noncomputable def exDocC : Document :=
  ⟨"c", "Gamma", "gamma content", "uc", "fc", [2, 3], 0, 1⟩

/-- The content "a" repeated 4000 times of the context-assembler example. -/
def longContentA : String := String.mk (List.replicate 4000 'a')

/-- The content "b" repeated 4000 times of the context-assembler example. -/
def longContentB : String := String.mk (List.replicate 4000 'b')

/-- The 0.9-scored long result of the context-assembler example. -/
noncomputable def exResA : SimilarityResult :=
  ⟨⟨"ra", "RA", longContentA, "u", "f", [], 0, 0⟩, 9/10⟩

/-- The 0.5-scored long result of the context-assembler example. -/
noncomputable def exResB : SimilarityResult :=
  ⟨⟨"rb", "RB", longContentB, "u", "f", [], 0, 0⟩, 1/2⟩

/-- The KAS document of the keyword-search example. -/
def kasDoc : SimpleDocument :=
  ⟨"kas", "Key Access Service (KAS) configuration",
   "The Key Access Service manages key access for policy enforcement.",
   "uk", "fk", []⟩

/-- A document sharing no terms with the KAS query. -/
def plainDoc : SimpleDocument :=
  ⟨"other", "Banana", "yellow fruit", "uo", "fo", []⟩

/-- The extracted keywords of the query "key access service". -/
def kasQueryWords : List String := extractKeywords (lowerStr "key access service")

/-- A one-document store whose document scores 4 against the query
"apple". -/
def appleDoc : SimpleDocument := ⟨"apple", "apple pie", "apple recipes", "u", "f", []⟩

/-- The store holding `appleDoc`. -/
def appleStore : SimpleRAGStore := ⟨[appleDoc], "p"⟩

/-- First of three documents matching the query "alpha". -/
def cDoc1 : SimpleDocument := ⟨"c1", "One", "alpha text here", "u", "f", []⟩

/-- Second of three documents matching the query "alpha". -/
def cDoc2 : SimpleDocument := ⟨"c2", "Two", "alpha text here", "u", "f", []⟩

/-- Third of three documents matching the query "alpha". -/
def cDoc3 : SimpleDocument := ⟨"c3", "Three", "alpha text here", "u", "f", []⟩

/-- A store with three documents, each scoring 2 against the query
"alpha". -/
def cStore3 : SimpleRAGStore := ⟨[cDoc1, cDoc2, cDoc3], "p"⟩

/-- A query of twelve distinct keywords. -/
def twelveQuery : String :=
  "alpha bravo charlie delta echo foxtrot golf hotel india juliet kilo lima"

/-- A document matching exactly one of the twelve query words, scoring
1/12. -/
def lightDoc : SimpleDocument :=
  ⟨"ld", "Solo", "alpha appears somewhere here", "u", "f", []⟩

/-- The store holding `lightDoc`. -/
def lightStore : SimpleRAGStore := ⟨[lightDoc], "p"⟩

/-- A concrete embedding oracle returning a fixed 2-dimensional vector. -/
noncomputable def genEmbEx : String → Except String (List ℝ) :=
  fun _ => .ok [1, 0]

/-- A concrete conversation: a system message and one user turn. -/
def exMessages : List ChatMessage :=
  [⟨"system", "You are a helpful assistant."⟩, ⟨"user", "hello there"⟩]

/-- The cumulative estimated token cost of a result list, at the
`len(content) / 4` estimate of the context assembler. -/
def ragCost {α : Type} (contentLength : α → Nat) (l : List α) : Nat :=
  (l.map (fun r => contentLength r / 4)).sum

unseal Rat.add Rat.mul Rat.inv

/-- The greedy inclusion loop returns a prefix of its input. -/
theorem ragTake_eq_take {α : Type} (f : α → Nat) :
    ∀ (l : List α) (tc mt : Nat), ∃ n, ragTake f l tc mt = l.take n
  | [], _, _ => ⟨0, rfl⟩
  | r :: rest, tc, mt => by
    unfold ragTake
    by_cases h : mt < tc + f r / 4
    · exact ⟨0, by simp [h]⟩
    · obtain ⟨n, hn⟩ := ragTake_eq_take f rest (tc + f r / 4) mt
      exact ⟨n + 1, by simp [h, hn]⟩

/-- The greedy inclusion loop never lets the running token total pass the
budget. -/
theorem ragTake_cost_le {α : Type} (f : α → Nat) :
    ∀ (l : List α) (tc mt : Nat), tc ≤ mt →
      tc + ragCost f (ragTake f l tc mt) ≤ mt
  | [], _, _, h => by simpa [ragTake, ragCost]
  | r :: rest, tc, mt, h => by
    unfold ragTake
    by_cases hov : mt < tc + f r / 4
    · simpa [hov, ragCost]
    · have h2 := ragTake_cost_le f rest (tc + f r / 4) mt (by omega)
      simp only [if_neg hov, ragCost, List.map_cons, List.sum_cons] at h2 ⊢
      omega

/-- Elements of the greedy inclusion are elements of the input. -/
theorem ragTake_subset {α : Type} (f : α → Nat) (l : List α) (tc mt : Nat) :
    ∀ r, r ∈ ragTake f l tc mt → r ∈ l := by
  obtain ⟨n, hn⟩ := ragTake_eq_take f l tc mt
  intro r hr
  exact List.take_subset n l (hn ▸ hr)

/-- The greedy inclusion includes at most as many results as given. -/
theorem ragTake_length_le {α : Type} (f : α → Nat) (l : List α)
    (tc mt : Nat) : (ragTake f l tc mt).length ≤ l.length := by
  obtain ⟨n, hn⟩ := ragTake_eq_take f l tc mt
  rw [hn]
  exact (List.take_sublist n l).length_le

/-- The descending sort orders its output by non-increasing key. -/
theorem sortByKeyDesc_sorted {α β : Type} [LinearOrder β] (k : α → β)
    (l : List α) : List.Sorted (keyGE k) (sortByKeyDesc k l) :=
  List.sorted_insertionSort (keyGE k) l

/-- The descending sort permutes its input. -/
theorem sortByKeyDesc_perm {α β : Type} [LinearOrder β] (k : α → β)
    (l : List α) : (sortByKeyDesc k l).Perm l :=
  List.perm_insertionSort (keyGE k) l

/-- Truncating at `m` under the guard `m < length` is plain truncation at
`min m length`. -/
theorem ifTake_eq_take_min {α : Type} (l : List α) (m : Nat) :
    (if m < l.length then l.take m else l) = l.take (min m l.length) := by
  by_cases h : m < l.length
  · simp [h, Nat.min_eq_left (Nat.le_of_lt h)]
  · simp [h, Nat.min_eq_right (Nat.le_of_not_lt h)]

/-- Claim C2: on a store whose `embeddingDim` is already fixed (positive),
adding a document whose embedding length differs fails with the
dimension-mismatch error and leaves the document sequence (hence the count)
unchanged; a matching length appends the document; and on a store whose
dimension is not yet fixed, a document carrying a non-empty embedding fixes
`embeddingDim` to that embedding length and is appended. -/
theorem C2_addDocument_dimension (vs : VectorStore) (doc : Document) :
    (0 < vs.embeddingDim → doc.embedding.length ≠ vs.embeddingDim →
      vs.addDocument doc = (vs, some "embedding dimension mismatch")) ∧
    (doc.embedding.length = vs.embeddingDim →
      vs.addDocument doc =
        (⟨vs.documents ++ [doc], vs.embeddingDim, vs.indexPath⟩, none)) ∧
    (vs.embeddingDim = 0 → 0 < doc.embedding.length →
      vs.addDocument doc =
        (⟨vs.documents ++ [doc], doc.embedding.length, vs.indexPath⟩, none)) := by
  refine ⟨?_, ?_, ?_⟩
  · intro hpos hne
    have h1 : ¬ (vs.embeddingDim = 0 ∧ 0 < doc.embedding.length) := by
      rintro ⟨h0, -⟩; omega
    simp [VectorStore.addDocument, h1, hne, hpos]
  · intro heq
    rcases Nat.eq_zero_or_pos vs.embeddingDim with h0 | hpos
    · have h1 : ¬ (vs.embeddingDim = 0 ∧ 0 < doc.embedding.length) := by
        rintro ⟨-, hlen⟩; omega
      simp [VectorStore.addDocument, h1, heq, h0]
    · have h1 : ¬ (vs.embeddingDim = 0 ∧ 0 < doc.embedding.length) := by
        rintro ⟨h0, -⟩; omega
      simp [VectorStore.addDocument, h1, heq]
  · intro h0 hlen
    simp [VectorStore.addDocument, h0, hlen]

/-- Witness for C2 at concrete stores and documents: a length-3 embedding
against dimension 2 is rejected leaving the store unchanged, a length-2
embedding is appended, and a fresh store fixes its dimension to the first
non-empty embedding length. -/
theorem C2_addDocument_dimension_witness :
    (exVS.addDocument exDocBad = (exVS, some "embedding dimension mismatch")) ∧
    (exVS.addDocument exDocC =
      (⟨exVS.documents ++ [exDocC], exVS.embeddingDim, exVS.indexPath⟩, none)) ∧
    ((NewVectorStore "p").addDocument exDocA =
      (⟨(NewVectorStore "p").documents ++ [exDocA],
        exDocA.embedding.length, (NewVectorStore "p").indexPath⟩, none)) :=
  ⟨(C2_addDocument_dimension exVS exDocBad).1 (by decide) (by decide),
   (C2_addDocument_dimension exVS exDocC).2.1 (by decide),
   (C2_addDocument_dimension (NewVectorStore "p") exDocA).2.2 rfl (by decide)⟩

/-- Claim C9: searching a store whose dimension is still 0 with a non-empty
query embedding fails with the dimension-mismatch error (rather than
returning an empty result list); more generally any query whose length
differs from the current dimension fails, so an `.ok` result is only
possible when the query length equals `embeddingDim`. -/
theorem C9_search_unfixed_dimension (vs : VectorStore) (q : List ℝ)
    (topK : Nat) :
    (vs.embeddingDim = 0 → q ≠ [] →
      vs.search q topK = .error "query embedding dimension mismatch") ∧
    (q.length ≠ vs.embeddingDim →
      vs.search q topK = .error "query embedding dimension mismatch") := by
  constructor
  · intro h0 hq
    have hne : q.length ≠ vs.embeddingDim := by
      rw [h0]
      intro hlen
      exact hq (List.length_eq_zero.mp hlen)
    unfold VectorStore.search
    rw [if_pos hne]
  · intro hne
    unfold VectorStore.search
    rw [if_pos hne]

/-- Witness for C9: a fresh (dimension-0) store rejects the query `[1]`, and
the dimension-2 store `exVS` rejects it too. -/
theorem C9_search_unfixed_dimension_witness :
    ((NewVectorStore "p").search [1] 5 =
      .error "query embedding dimension mismatch") ∧
    (exVS.search [1] 5 = .error "query embedding dimension mismatch") :=
  ⟨(C9_search_unfixed_dimension (NewVectorStore "p") [1] 5).1 rfl
    (by simp),
   (C9_search_unfixed_dimension exVS [1] 5).2 (by decide)⟩

/-- Claim C6: after `stop()` the engine is no longer running, and any
subsequent `chat` or `chatStream` call returns the not-running error
without consulting the inference oracle: the result is the same constant
for every oracle, and the streamed piece list is empty. -/
theorem C6_chat_after_stop (sce : SimpleChatEngine)
    (infer : String → Except String String)
    (inferStream : String → Except String (List String))
    (showScore : ℚ → String) (messages : List ChatMessage) :
    (sce.stop).running = false ∧
    (sce.stop).chat infer showScore messages =
      ⟨"", some "engine not running"⟩ ∧
    (sce.stop).chatStream inferStream showScore messages =
      (⟨"", some "engine not running"⟩, []) := by
  have hrun : (sce.stop).running = false := by
    unfold SimpleChatEngine.stop
    by_cases h : sce.running = true
    · simp [h]
    · simp only [Bool.not_eq_true] at h
      simp [h]
  refine ⟨hrun, ?_, ?_⟩
  · unfold SimpleChatEngine.chat
    simp [hrun]
  · unfold SimpleChatEngine.chatStream
    simp [hrun]

/-- Encoding then decoding a list of numbers is the identity. -/
theorem mapM_asNum_map_num : ∀ l : List ℝ,
    optionMapList Jx.asNum (l.map Jx.num) = some l
  | [] => rfl
  | x :: l => by
    simp [optionMapList, mapM_asNum_map_num l, Jx.asNum]

/-- Encoding then decoding a list of strings is the identity. -/
theorem mapM_asStr_map_str : ∀ l : List String,
    optionMapList Jx.asStr (l.map Jx.str) = some l
  | [] => rfl
  | x :: l => by
    simp [optionMapList, mapM_asStr_map_str l, Jx.asStr]

/-- Encoding then decoding a `Document` is the identity. -/
theorem document_ofJx_toJx (d : Document) :
    Document.ofJx d.toJx = some d := by
  simp [Document.toJx, Document.ofJx, Jx.get, List.find?, Jx.asStr,
    Jx.asInt, Jx.asNumList, mapM_asNum_map_num]

/-- Encoding then decoding a `SimpleDocument` is the identity. -/
theorem simpleDocument_ofJx_toJx (d : SimpleDocument) :
    SimpleDocument.ofJx d.toJx = some d := by
  simp [SimpleDocument.toJx, SimpleDocument.ofJx, Jx.get, List.find?,
    Jx.asStr, Jx.asStrList, mapM_asStr_map_str]

/-- Encoding then decoding a document list is the identity. -/
theorem mapM_Document_ofJx_toJx : ∀ docs : List Document,
    optionMapList Document.ofJx (docs.map Document.toJx) = some docs
  | [] => rfl
  | d :: docs => by
    simp [optionMapList, document_ofJx_toJx, mapM_Document_ofJx_toJx docs]

/-- Encoding then decoding a simple-document list is the identity. -/
theorem mapM_SimpleDocument_ofJx_toJx : ∀ docs : List SimpleDocument,
    optionMapList SimpleDocument.ofJx (docs.map SimpleDocument.toJx) = some docs
  | [] => rfl
  | d :: docs => by
    simp [optionMapList, simpleDocument_ofJx_toJx,
      mapM_SimpleDocument_ofJx_toJx docs]

/-- Claim C7: for either store kind, saving and loading the JSON index into
a fresh store reproduces the document sequence exactly — the same count and
identical content in every field of every document (and, for the vector
store, the same dimension). -/
theorem C7_save_load_roundtrip (vs : VectorStore) (s : SimpleRAGStore)
    (path path2 : String) :
    (NewVectorStore path).loadIndex vs.saveIndex =
      some ⟨vs.documents, vs.embeddingDim, path⟩ ∧
    (NewSimpleRAGStore path2).loadIndex s.saveIndex =
      some ⟨s.documents, path2⟩ := by
  constructor
  · simp [VectorStore.loadIndex, VectorStore.saveIndex, NewVectorStore,
      Jx.get, List.find?, Jx.asInt, mapM_Document_ofJx_toJx]
  · simp [SimpleRAGStore.loadIndex, SimpleRAGStore.saveIndex,
      NewSimpleRAGStore, Jx.get, List.find?, mapM_SimpleDocument_ofJx_toJx]

/-- Claim C3: both context assemblers include a prefix of the given result
order, the cumulative estimated token cost (`len(content) / 4` per document)
of the included documents never exceeds `maxTokens`; and on the two 4000-
character results scored 0.9 and 0.5 with a budget of 1500 exactly one
document is included. -/
theorem C3_context_budget (showSim : ℝ → String) (showScore : ℚ → String)
    (query : String) (results : List SimilarityResult)
    (sresults : List SearchResult) (maxTokens : Nat) :
    (∃ n, (BuildRAGContext showSim query results maxTokens).results =
      results.take n) ∧
    ragCost (fun r : SimilarityResult => r.document.content.length)
      (BuildRAGContext showSim query results maxTokens).results ≤ maxTokens ∧
    (∃ n used, (BuildSimpleRAGContext showScore query sresults
        maxTokens).results = used.map SearchResult.toSimilarityResult ∧
      used = sresults.take n ∧
      ragCost (fun r : SearchResult => r.document.content.length) used ≤
        maxTokens) ∧
    (BuildRAGContext showSim query [exResA, exResB] 1500).numDocuments = 1 := by
  refine ⟨?_, ?_, ?_, ?_⟩
  · exact ragTake_eq_take _ results 0 maxTokens
  · simpa using
      ragTake_cost_le (fun r : SimilarityResult => r.document.content.length)
        results 0 maxTokens (Nat.zero_le maxTokens)
  · obtain ⟨n, hn⟩ := ragTake_eq_take
      (fun r : SearchResult => r.document.content.length) sresults 0 maxTokens
    refine ⟨n, ragTake (fun r : SearchResult => r.document.content.length)
      sresults 0 maxTokens, rfl, hn, ?_⟩
    simpa using
      ragTake_cost_le (fun r : SearchResult => r.document.content.length)
        sresults 0 maxTokens (Nat.zero_le maxTokens)
  · have hA : exResA.document.content.length = 4000 := by
      show (String.mk (List.replicate 4000 'a')).length = 4000
      rw [show (String.mk (List.replicate 4000 'a')).length
          = (List.replicate 4000 'a').length from rfl, List.length_replicate]
    have hB : exResB.document.content.length = 4000 := by
      show (String.mk (List.replicate 4000 'b')).length = 4000
      rw [show (String.mk (List.replicate 4000 'b')).length
          = (List.replicate 4000 'b').length from rfl, List.length_replicate]
    simp [BuildRAGContext, ragTake, hA, hB]

/-- Claim C1, the part the code guarantees: with a query embedding of the
fixed store dimension, search succeeds and returns exactly `min topK N`
results out of the `N` stored documents, sorted by non-increasing cosine
similarity.  The remaining clause of the claim — that equal-similarity
results keep their insertion order — is not a guarantee of the program:
the results are ordered by `sort.Slice`, which Go documents as not
guaranteed to be stable, and on 13 or more scored documents its pdqsort
does return equal similarities out of insertion order; that clause is
therefore a divergence between the specification and the code, not proven
here. -/
theorem C1_search_ranking (vs : VectorStore) (q : List ℝ) (topK : Nat)
    (hdim : q.length = vs.embeddingDim) :
    ∃ rs, vs.search q topK = .ok rs ∧
      rs.length = min topK vs.documents.length ∧
      List.Sorted (keyGE (fun r : SimilarityResult => r.similarity)) rs := by
  unfold VectorStore.search
  rw [if_neg (by simp [hdim])]
  have hslen : (sortByKeyDesc (fun r : SimilarityResult => r.similarity)
      (vs.scoredResults q)).length = vs.documents.length := by
    rw [(sortByKeyDesc_perm _ _).length_eq]
    simp [VectorStore.scoredResults]
  have hclamp : (if vs.documents.length < topK then vs.documents.length
      else topK) = min topK vs.documents.length := by
    split <;> omega
  refine ⟨_, rfl, ?_, ?_⟩
  · rw [hclamp, ifTake_eq_take_min, List.length_take, hslen]
    omega
  · rw [hclamp, ifTake_eq_take_min]
    exact List.Pairwise.sublist (List.take_sublist _ _)
      (sortByKeyDesc_sorted _ _)

/-- Witness for C1 on the two-document store `exVS` with the query `[1, 0]`
of matching dimension 2. -/
theorem C1_search_ranking_witness :
    ∃ rs, exVS.search [1, 0] 5 = .ok rs ∧
      rs.length = min 5 exVS.documents.length ∧
      List.Sorted (keyGE (fun r : SimilarityResult => r.similarity)) rs :=
  C1_search_ranking exVS [1, 0] 5 rfl

/-- A sum of guarded terms is the sum over the filtered list. -/
theorem sum_map_ite_eq_sum_filter {α : Type} (l : List α) (p : α → Bool)
    (f : α → ℚ) :
    (l.map (fun w => if p w then f w else 0)).sum =
      ((l.filter p).map f).sum := by
  induction l with
  | nil => rfl
  | cons x l ih => by_cases h : p x <;> simp [h, ih]

/-- Claim C4: keyword search on an empty store returns no results and no
error; every returned result carries a positive score, computed by
`calculateScore` on a document of the store; `calculateScore` is exactly the
claimed formula (`claimedKeywordScore`); and on the concrete query
"key access service" the KAS-titled document scores positive while a
document sharing no terms scores 0 (and is therefore excluded). -/
theorem C4_keyword_scoring (s : SimpleRAGStore) (query : String)
    (topK : Nat) (queryWords : List String) (doc : SimpleDocument) :
    (s.documents = [] → s.search query topK = ([], none)) ∧
    (∀ r ∈ (s.search query topK).1,
      0 < r.score ∧
      r.score = SimpleRAGStore.calculateScore
        (extractKeywords (lowerStr query)) r.document ∧
      r.document ∈ s.documents) ∧
    (SimpleRAGStore.calculateScore queryWords doc =
      claimedKeywordScore queryWords doc) ∧
    (SimpleRAGStore.calculateScore kasQueryWords plainDoc = 0 ∧
      0 < SimpleRAGStore.calculateScore kasQueryWords kasDoc) := by
  refine ⟨?_, ?_, ?_, ?_⟩
  · intro h
    simp [SimpleRAGStore.search, h]
  · intro r hr
    unfold SimpleRAGStore.search at hr
    by_cases hemp : s.documents.length = 0
    · simp [hemp] at hr
    · rw [if_neg hemp] at hr
      simp only at hr
      rw [ifTake_eq_take_min] at hr
      have hr2 := List.take_subset _ _ hr
      have hr3 := (sortByKeyDesc_perm
        (fun r : SearchResult => r.score) _).subset hr2
      rw [List.mem_filter] at hr3
      obtain ⟨hmem, hpos⟩ := hr3
      rw [List.mem_map] at hmem
      obtain ⟨d, hd, hrd⟩ := hmem
      subst hrd
      refine ⟨by simpa using hpos, rfl, hd⟩
  · by_cases h : queryWords.length = 0
    · simp [SimpleRAGStore.calculateScore, claimedKeywordScore, h]
    · simp only [SimpleRAGStore.calculateScore, claimedKeywordScore,
        if_neg h]
      congr 1
      rw [← sum_map_ite_eq_sum_filter]
      apply congrArg List.sum
      apply List.map_congr_left
      intro w _
      by_cases h1 : (extractKeywords
          (lowerStr (doc.title ++ " " ++ doc.content))).contains w
      · by_cases h2 : 1 < (extractKeywords
            (lowerStr (doc.title ++ " " ++ doc.content))).count w <;>
          by_cases h3 : strContains (lowerStr doc.title) w <;>
          simp [h1, h2, h3]
      · simp [h1]
  · constructor
    · decide
    · decide

/-- Witness for C4: the empty store returns no results for the query
"apple", and the sole result of searching `appleStore` for "apple" has a
positive score computed by `calculateScore` on a stored document. -/
theorem C4_keyword_scoring_witness :
    ((NewSimpleRAGStore "p").search "apple" 5 = ([], none)) ∧
    (0 < (⟨appleDoc, 4⟩ : SearchResult).score ∧
      (⟨appleDoc, 4⟩ : SearchResult).score = SimpleRAGStore.calculateScore
        (extractKeywords (lowerStr "apple"))
        (⟨appleDoc, 4⟩ : SearchResult).document ∧
      (⟨appleDoc, 4⟩ : SearchResult).document ∈ appleStore.documents) :=
  ⟨(C4_keyword_scoring (NewSimpleRAGStore "p") "apple" 5 [] plainDoc).1 rfl,
   (C4_keyword_scoring appleStore "apple" 5 [] plainDoc).2.1
     ⟨appleDoc, 4⟩ (by decide)⟩

/-- Keyword search returns at most `topK` results. -/
theorem search_length_le (s : SimpleRAGStore) (query : String) (topK : Nat) :
    (s.search query topK).1.length ≤ topK := by
  unfold SimpleRAGStore.search
  by_cases h : s.documents.length = 0
  · simp [h]
  · rw [if_neg h]
    simp only
    rw [ifTake_eq_take_min, List.length_take]
    omega

/-- Vector search with a query of the right dimension succeeds, with at
most `topK` results. -/
theorem vectorSearch_ok_le (vs : VectorStore) (q : List ℝ) (topK : Nat)
    (hdim : q.length = vs.embeddingDim) :
    ∃ rs, vs.search q topK = .ok rs ∧ rs.length ≤ topK := by
  unfold VectorStore.search
  rw [if_neg (by simp [hdim])]
  refine ⟨_, rfl, ?_⟩
  rw [ifTake_eq_take_min, List.length_take]
  split <;> omega

/-- The `SearchResult` to `SimilarityResult` conversion preserves document
content, hence the estimated token cost. -/
theorem ragCost_map_toSim (used : List SearchResult) :
    ragCost (fun r : SimilarityResult => r.document.content.length)
      (used.map SearchResult.toSimilarityResult) =
    ragCost (fun r : SearchResult => r.document.content.length) used := by
  unfold ragCost
  rw [List.map_map]
  rfl

/-- Counterexample to claim C5, which asserts keyword-mode retrieval with
`topK = 2` and a score filter above 0.1 in both engines.  On a store of
three documents each scoring 2 for the query "alpha", the full engine's
keyword retrieval assembles 3 documents (its actual `topK` is 5), while the
claimed `topK = 2` retrieval could assemble at most 2; and on a store whose
single document scores 1/12 for a twelve-word query, the lightweight engine
assembles that document (it applies no threshold), while the claimed filter
above 0.1 assembles none. -/
theorem C5_counterexample :
    ((ChatEngine.retrieveSimpleRAGContext cStore3 showScoreEx
        "alpha").toOption.map RAGContext.numDocuments = some 3 ∧
      (claimedKeywordRetrievalFull cStore3 showScoreEx
        "alpha").numDocuments = 2) ∧
    ((SimpleChatEngine.retrieveSimpleRAG lightStore showScoreEx
        twelveQuery).numDocuments = 1 ∧
      (claimedKeywordRetrievalLight lightStore showScoreEx
        twelveQuery).numDocuments = 0) := by
  refine ⟨⟨?_, ?_⟩, ?_, ?_⟩ <;> decide

/-- Amended claim C5: the full engine searches with `topK = 5` in both
embedding and keyword modes, keeps only results above the mode-specific
threshold (similarity above 0.3 for embedding mode, score above 0.1 for
keyword mode) and assembles within a 2000-token budget; the lightweight
engine searches the keyword store with `topK = 2` and assembles within an
800-token budget, applying no score threshold (so it retains at most 2
documents of any positive score). -/
theorem C5_retrieval_parameters :
    (∀ (vs : VectorStore) (genEmbedding : String → Except String (List ℝ))
        (showSim : ℝ → String) (query : String) (emb : List ℝ),
      genEmbedding query = .ok emb → emb.length = vs.embeddingDim →
      ∃ rc, ChatEngine.retrieveRAGContext vs genEmbedding showSim query =
          .ok rc ∧
        (∀ r ∈ rc.results, (3 : ℝ)/10 < r.similarity) ∧
        rc.numDocuments ≤ 5 ∧
        ragCost (fun r : SimilarityResult => r.document.content.length)
          rc.results ≤ 2000) ∧
    (∀ (store : SimpleRAGStore) (showScore : ℚ → String) (query : String),
      ∃ rc, ChatEngine.retrieveSimpleRAGContext store showScore query =
          .ok rc ∧
        (∀ r ∈ rc.results, (1 : ℝ)/10 < r.similarity) ∧
        rc.numDocuments ≤ 5 ∧
        ragCost (fun r : SimilarityResult => r.document.content.length)
          rc.results ≤ 2000) ∧
    (∀ (store : SimpleRAGStore) (showScore : ℚ → String) (query : String),
      (SimpleChatEngine.retrieveSimpleRAG store showScore
        query).numDocuments ≤ 2 ∧
      ragCost (fun r : SimilarityResult => r.document.content.length)
        (SimpleChatEngine.retrieveSimpleRAG store showScore
          query).results ≤ 800) := by
  refine ⟨?_, ?_, ?_⟩
  · intro vs genEmbedding showSim query emb hemb hdim
    obtain ⟨rs, hrs, hlen⟩ := vectorSearch_ok_le vs emb 5 hdim
    refine ⟨BuildRAGContext showSim query
      (rs.filter (fun r => decide ((3 : ℝ)/10 < r.similarity))) 2000,
      ?_, ?_, ?_, ?_⟩
    · unfold ChatEngine.retrieveRAGContext
      rw [hemb]
      simp [hrs]
    · intro r hr
      simp only [BuildRAGContext] at hr
      have hr2 := ragTake_subset _ _ _ _ r hr
      rw [List.mem_filter] at hr2
      simpa using hr2.2
    · simp only [BuildRAGContext]
      calc (ragTake (fun r : SimilarityResult => r.document.content.length)
          (rs.filter (fun r => decide ((3 : ℝ)/10 < r.similarity)))
          0 2000).length ≤
            (rs.filter (fun r => decide ((3 : ℝ)/10 < r.similarity))).length :=
          ragTake_length_le _ _ _ _
        _ ≤ rs.length := List.length_filter_le _ _
        _ ≤ 5 := hlen
    · simp only [BuildRAGContext]
      simpa using ragTake_cost_le
        (fun r : SimilarityResult => r.document.content.length)
        (rs.filter (fun r => decide ((3 : ℝ)/10 < r.similarity))) 0 2000
        (Nat.zero_le 2000)
  · intro store showScore query
    refine ⟨_, rfl, ?_, ?_, ?_⟩
    · intro r hr
      simp only [ChatEngine.retrieveSimpleRAGContext,
        BuildSimpleRAGContext] at hr
      rw [List.mem_map] at hr
      obtain ⟨u, hu, hru⟩ := hr
      have hu2 := ragTake_subset _ _ _ _ u hu
      rw [List.mem_filter] at hu2
      have hscore : (1 : ℚ)/10 < u.score := by simpa using hu2.2
      rw [← hru]
      show (1 : ℝ)/10 < ((u.score : ℚ) : ℝ)
      have : ((1 : ℚ)/10 : ℝ) < ((u.score : ℚ) : ℝ) := by
        exact_mod_cast hscore
      simpa using this
    · simp only [ChatEngine.retrieveSimpleRAGContext, BuildSimpleRAGContext]
      calc (ragTake (fun r : SearchResult => r.document.content.length)
          (((store.search query 5).1).filter (fun r => 1/10 < r.score))
          0 2000).length ≤
            (((store.search query 5).1).filter
              (fun r => 1/10 < r.score)).length := ragTake_length_le _ _ _ _
        _ ≤ (store.search query 5).1.length := List.length_filter_le _ _
        _ ≤ 5 := search_length_le store query 5
    · simp only [ChatEngine.retrieveSimpleRAGContext, BuildSimpleRAGContext]
      rw [ragCost_map_toSim]
      simpa using ragTake_cost_le
        (fun r : SearchResult => r.document.content.length)
        (((store.search query 5).1).filter (fun r => 1/10 < r.score)) 0 2000
        (Nat.zero_le 2000)
  · intro store showScore query
    constructor
    · simp only [SimpleChatEngine.retrieveSimpleRAG, BuildSimpleRAGContext]
      calc (ragTake (fun r : SearchResult => r.document.content.length)
          (store.search query 2).1 0 800).length ≤
            (store.search query 2).1.length := ragTake_length_le _ _ _ _
        _ ≤ 2 := search_length_le store query 2
    · simp only [SimpleChatEngine.retrieveSimpleRAG, BuildSimpleRAGContext]
      rw [ragCost_map_toSim]
      simpa using ragTake_cost_le
        (fun r : SearchResult => r.document.content.length)
        (store.search query 2).1 0 800 (Nat.zero_le 800)

/-- Witness for the amended C5 at the concrete store `exVS` with the
constant embedding oracle `genEmbEx`. -/
theorem C5_retrieval_parameters_witness :
    ∃ rc, ChatEngine.retrieveRAGContext exVS genEmbEx showSimEx "q" =
        .ok rc ∧
      (∀ r ∈ rc.results, (3 : ℝ)/10 < r.similarity) ∧
      rc.numDocuments ≤ 5 ∧
      ragCost (fun r : SimilarityResult => r.document.content.length)
        rc.results ≤ 2000 :=
  C5_retrieval_parameters.1 exVS genEmbEx showSimEx "q" [1, 0] rfl rfl

/-- A sum of squares is nonnegative. -/
theorem sumSq_nonneg (a : List ℝ) : 0 ≤ sumSq a := by
  unfold sumSq
  apply List.sum_nonneg
  intro x hx
  rw [List.mem_map] at hx
  obtain ⟨y, -, rfl⟩ := hx
  exact mul_self_nonneg y

/-- The inductive step of the Cauchy-Schwarz bound. -/
theorem cs_step (x y d A B : ℝ) (hA : 0 ≤ A) (hB : 0 ≤ B)
    (ih : d ^ 2 ≤ A * B) :
    (x * y + d) ^ 2 ≤ (x * x + A) * (y * y + B) := by
  rcases eq_or_lt_of_le hB with hB0 | hBpos
  · have hd2 : d ^ 2 = 0 := le_antisymm (by nlinarith) (sq_nonneg d)
    have hd : d = 0 := pow_eq_zero_iff two_ne_zero |>.mp hd2
    subst hd
    nlinarith [mul_nonneg hA (mul_self_nonneg y), sq_nonneg (x * y)]
  · nlinarith [sq_nonneg (x * B - y * d),
      mul_nonneg (mul_self_nonneg y) (sub_nonneg.mpr ih),
      mul_nonneg hB (sub_nonneg.mpr ih)]

/-- Cauchy-Schwarz for the list dot product: the square of the dot product
is at most the product of the sums of squares (lengths need not agree; the
dot product truncates at the shorter list). -/
theorem dotList_sq_le : ∀ a b : List ℝ,
    dotList a b ^ 2 ≤ sumSq a * sumSq b
  | [], b => by
    simp [dotList, sumSq]
  | _ :: _, [] => by
    simp [dotList, sumSq]
  | x :: as, y :: bs => by
    have ih := dotList_sq_le as bs
    have hA := sumSq_nonneg as
    have hB := sumSq_nonneg bs
    simp only [dotList, sumSq, List.zipWith_cons_cons, List.map_cons,
      List.sum_cons] at ih hA hB ⊢
    exact cs_step x y _ _ _ hA hB ih

/-- Claim C8: cosine similarity is symmetric, always lies in the interval
from -1 to 1, and is exactly 0 (not NaN, not an error) whenever either
vector has zero norm. -/
theorem C8_cosine_properties (a b : List ℝ) :
    cosineSimilarity a b = cosineSimilarity b a ∧
    -1 ≤ cosineSimilarity a b ∧ cosineSimilarity a b ≤ 1 ∧
    (sumSq a = 0 ∨ sumSq b = 0 → cosineSimilarity a b = 0) := by
  have habs : |cosineSimilarity a b| ≤ 1 := by
    unfold cosineSimilarity
    by_cases hlen : a.length ≠ b.length
    · rw [if_pos hlen]; simp
    · rw [if_neg hlen]
      by_cases hz : sumSq a = 0 ∨ sumSq b = 0
      · rw [if_pos hz]; simp
      · rw [if_neg hz]
        push_neg at hz
        obtain ⟨hA0, hB0⟩ := hz
        have hA := (sumSq_nonneg a).lt_of_ne (Ne.symm hA0)
        have hB := (sumSq_nonneg b).lt_of_ne (Ne.symm hB0)
        have hsqrt : 0 < Real.sqrt (sumSq a) * Real.sqrt (sumSq b) :=
          mul_pos (Real.sqrt_pos.mpr hA) (Real.sqrt_pos.mpr hB)
        rw [abs_div, abs_of_pos hsqrt, div_le_one hsqrt]
        have h1 : |dotList a b| ^ 2 ≤ sumSq a * sumSq b := by
          rw [sq_abs]; exact dotList_sq_le a b
        have h2 : |dotList a b| ≤ Real.sqrt (sumSq a * sumSq b) :=
          (Real.le_sqrt (abs_nonneg _)
            (mul_nonneg hA.le hB.le)).mpr h1
        calc |dotList a b| ≤ Real.sqrt (sumSq a * sumSq b) := h2
          _ = Real.sqrt (sumSq a) * Real.sqrt (sumSq b) :=
            Real.sqrt_mul hA.le _
  refine ⟨?_, (abs_le.mp habs).1, (abs_le.mp habs).2, ?_⟩
  · unfold cosineSimilarity
    by_cases hlen : a.length = b.length
    · have h1 : ¬ a.length ≠ b.length := by simp [hlen]
      have h2 : ¬ b.length ≠ a.length := by simp [hlen]
      rw [if_neg h1, if_neg h2]
      have hdot : dotList a b = dotList b a := by
        unfold dotList
        rw [List.zipWith_comm_of_comm _ mul_comm]
      by_cases hz : sumSq a = 0 ∨ sumSq b = 0
      · rw [if_pos hz, if_pos (Or.symm hz)]
      · rw [if_neg hz, if_neg (fun h => hz (Or.symm h))]
        rw [hdot, mul_comm]
    · have h1 : a.length ≠ b.length := hlen
      have h2 : b.length ≠ a.length := fun h => hlen h.symm
      rw [if_pos h1, if_pos h2]
  · intro hz
    unfold cosineSimilarity
    by_cases hlen : a.length ≠ b.length
    · rw [if_pos hlen]
    · rw [if_neg hlen, if_pos hz]

/-- Witness for C8: the zero vector against `[3, 4]` has similarity exactly
0. -/
theorem C8_cosine_properties_witness :
    cosineSimilarity [0, 0] [3, 4] = 0 :=
  (C8_cosine_properties [0, 0] [3, 4]).2.2.2
    (Or.inl (by norm_num [sumSq]))

/-- Claim C10: on an engine with both embedding-mode and keyword-mode
retrieval enabled and a non-empty user query, prompt building consults only
the vector store; the result is unchanged under replacing the keyword store
(and its score formatter), and equals the prompt of the engine on which
only embedding-mode retrieval was enabled.  The two enable calls commute. -/
theorem C10_embedding_precedence (ce : ChatEngine) (vs : VectorStore)
    (store store2 : SimpleRAGStore)
    (genEmbedding : String → Except String (List ℝ)) (showSim : ℝ → String)
    (showScore showScore2 : ℚ → String) (messages : List ChatMessage)
    (userQuery : String) (hq : userQuery ≠ "") :
    ((ce.enableRAG vs).enableSimpleRAG store).buildPromptWithRAG genEmbedding
      showSim showScore messages userQuery =
      ((ce.enableRAG vs).enableSimpleRAG store2).buildPromptWithRAG
        genEmbedding showSim showScore2 messages userQuery ∧
    ((ce.enableRAG vs).enableSimpleRAG store).buildPromptWithRAG genEmbedding
      showSim showScore messages userQuery =
      (ce.enableRAG vs).buildPromptWithRAG genEmbedding showSim showScore
        messages userQuery ∧
    (ce.enableRAG vs).enableSimpleRAG store =
      (ce.enableSimpleRAG store).enableRAG vs := by
  refine ⟨?_, ?_, rfl⟩ <;>
    simp [ChatEngine.buildPromptWithRAG, ChatEngine.enableRAG,
      ChatEngine.enableSimpleRAG, hq]

/-- Witness for C10 at a concrete engine, stores and conversation, with the
non-empty query "hi". -/
theorem C10_embedding_precedence_witness :
    (((NewChatEngine "m").enableRAG exVS).enableSimpleRAG
        appleStore).buildPromptWithRAG genEmbEx showSimEx showScoreEx
        exMessages "hi" =
      (((NewChatEngine "m").enableRAG exVS).enableSimpleRAG
        lightStore).buildPromptWithRAG genEmbEx showSimEx showScoreEx
        exMessages "hi" ∧
    (((NewChatEngine "m").enableRAG exVS).enableSimpleRAG
        appleStore).buildPromptWithRAG genEmbEx showSimEx showScoreEx
        exMessages "hi" =
      ((NewChatEngine "m").enableRAG exVS).buildPromptWithRAG genEmbEx
        showSimEx showScoreEx exMessages "hi" ∧
    ((NewChatEngine "m").enableRAG exVS).enableSimpleRAG appleStore =
      ((NewChatEngine "m").enableSimpleRAG appleStore).enableRAG exVS :=
  C10_embedding_precedence (NewChatEngine "m") exVS appleStore lightStore
    genEmbEx showSimEx showScoreEx showScoreEx exMessages "hi" (by decide)
